import Mathlib

/-!
Verification development for the SCT Camera Control Protocol Server
(src/sctcamsoft/server.py together with src/sctcamsoft/camera_control_classes.py).

The Python code is shallowly embedded: Python dicts become association
lists, Python scalar values become the inductive type PyV (with floats
modelled as exact rationals), raising an exception becomes returning an
Except value, and mutation of an object becomes explicit state passing.
Exceptions are split into the repository's own CameraControlError family
(CtrlErr) and Python-level exceptions such as KeyError and AttributeError
(PyExn); the distinction matters because the server main loop catches only
the former.  The adaptive rate-scan arithmetic (floating point in the
source) is modelled separately over the real numbers.
-/

namespace SCTSC

/-- A Python scalar value as it occurs in the command/update data flow of
server.py: None, str, int, float (modelled as an exact rational) or bool.
No list/dict values flow through command argument maps in this code. -/
inductive PyV where
  | vnone : PyV
  | vstr (s : String) : PyV
  | vint (n : Int) : PyV
  | vrat (q : ℚ) : PyV
  | vbool (b : Bool) : PyV
deriving DecidableEq, Repr

/-- A Python dict keyed by str-or-None (the only key shapes reachable in
server.py's argument maps), as an insertion-ordered association list with
distinct keys. -/
abbrev PyDict := List (Option String × PyV)

/-- Association-list lookup, mirroring Python dict indexing d[k]. -/
def lookupKey (d : PyDict) (k : Option String) : Option PyV :=
  match d with
  | [] => none
  | kv :: rest => if kv.1 = k then some kv.2 else lookupKey rest k

/-- Python membership test k in d (on the keys of a dict). -/
def hasKey (d : PyDict) (k : Option String) : Bool :=
  match d with
  | [] => false
  | kv :: rest => kv.1 = k || hasKey rest k

/-- Python dict assignment d[k] = v: replaces the value of an existing key
in place, otherwise appends the new key at the end (insertion order). -/
def dictAssign (d : PyDict) (k : Option String) (v : PyV) : PyDict :=
  match d with
  | [] => [(k, v)]
  | kv :: rest => if kv.1 = k then (k, v) :: rest else kv :: dictAssign rest k v

/-- Python dict merge with override, mirroring the expression
left-to-right merge of two dicts where the second dict's values win. -/
def pyMerge (a b : PyDict) : PyDict :=
  (a.map fun kv => match lookupKey b kv.1 with
    | some v => (kv.1, v)
    | none => kv)
  ++ b.filter (fun kv => ¬ hasKey a kv.1)

/-- str() of an optional string, as Python formats it: None prints as
the text None. -/
def fmtOptStr : Option String → String
  | none => "None"
  | some s => s

/-- str() of a PyV, used only to build human-readable error messages. -/
def pyStr : PyV → String
  | .vnone => "None"
  | .vstr s => s
  | .vint n => toString n
  | .vrat q => toString q
  | .vbool b => if b then "True" else "False"

/-- Parse a run of decimal digits into a natural number. -/
def digitsToNat : List Char → Option Nat
  | [] => none
  | cs => cs.foldl (fun acc c => match acc with
      | none => none
      | some n => if c.isDigit then some (n * 10 + (c.toNat - 48)) else none)
      (some 0)

/-- Model of Python int(s) on a string: an optional sign followed by
decimal digits; anything else raises ValueError (modelled as none). -/
def parseIntStr (s : String) : Option Int :=
  match s.toList with
  | '-' :: cs => (digitsToNat cs).map (fun n => -(n : Int))
  | '+' :: cs => (digitsToNat cs).map (fun n => (n : Int))
  | cs => (digitsToNat cs).map (fun n => (n : Int))

/-- Parse digits as the fractional part of a decimal number. -/
def fracToRat (cs : List Char) : Option ℚ :=
  match digitsToNat cs with
  | none => none
  | some n => some ((n : ℚ) / ((10 : ℚ) ^ cs.length))

/-- Split a character list at the first occurrence of the dot. -/
def splitAtDot : List Char → List Char × Option (List Char)
  | [] => ([], none)
  | '.' :: rest => ([], some rest)
  | c :: rest =>
    let (i, f) := splitAtDot rest
    (c :: i, f)

/-- Model of Python float(s) on a string: an optional sign, then either
digits, digits.digits, digits. or .digits; anything else raises
ValueError (modelled as none).  The numeric value is kept exact. -/
def parseFloatStr (s : String) : Option ℚ :=
  let core : List Char → Option ℚ := fun cs =>
    match splitAtDot cs with
    | (intPart, none) => (digitsToNat intPart).map (fun n => (n : ℚ))
    | ([], some []) => none
    | ([], some f) => if f.contains '.' then none else fracToRat f
    | (i, some []) => (digitsToNat i).map (fun n => (n : ℚ))
    | (i, some f) =>
      if f.contains '.' then none
      else match digitsToNat i, fracToRat f with
        | some n, some q => some ((n : ℚ) + q)
        | _, _ => none
  match s.toList with
  | '-' :: cs => (core cs).map Neg.neg
  | '+' :: cs => core cs
  | cs => core cs

/-- The ways a Python numeric conversion can fail: float("abc") raises
ValueError while float(None) raises TypeError.  The code under study
catches ValueError in several places but never TypeError. -/
inductive ConvErr where
  | valueError : ConvErr
  | typeError : ConvErr
deriving DecidableEq, Repr

/-- Model of Python float() applied to a PyV. -/
def pyFloat : PyV → Except ConvErr ℚ
  | .vnone => .error .typeError
  | .vstr s => match parseFloatStr s with
    | some q => .ok q
    | none => .error .valueError
  | .vint n => .ok (n : ℚ)
  | .vrat q => .ok q
  | .vbool b => .ok (if b then 1 else 0)

/-- Truncation of a rational toward zero, as Python int() does on floats. -/
def ratTrunc (q : ℚ) : Int :=
  if q < 0 then ⌈q⌉ else ⌊q⌋

/-- Model of Python int() applied to a PyV. -/
def pyInt : PyV → Except ConvErr Int
  | .vnone => .error .typeError
  | .vstr s => match parseIntStr s with
    | some n => .ok n
    | none => .error .valueError
  | .vint n => .ok n
  | .vrat q => .ok (ratTrunc q)
  | .vbool b => .ok (if b then 1 else 0)

/-- Model of Python bool() applied to a PyV (truthiness; never raises). -/
def pyTruthy : PyV → Bool
  | .vnone => false
  | .vstr s => s ≠ ""
  | .vint n => n ≠ 0
  | .vrat q => q ≠ 0
  | .vbool b => b

/-- The numeric view of a PyV (Python treats bool as an int). -/
def pyNum : PyV → Option ℚ
  | .vint n => some (n : ℚ)
  | .vrat q => some q
  | .vbool b => some (if b then 1 else 0)
  | _ => none

/-- Python equality == on the scalar values of this code base: numbers
compare by value across int/float/bool, strings by content, None only to
None, and cross-kind comparisons are False. -/
def pyEq (a b : PyV) : Bool :=
  match pyNum a, pyNum b with
  | some x, some y => x = y
  | _, _ =>
    match a, b with
    | .vstr s, .vstr t => s = t
    | .vnone, .vnone => true
    | _, _ => false

theorem pyEq_refl (v : PyV) : pyEq v v = true := by
  cases v <;> simp [pyEq, pyNum]

/-- Python comparison v <= q between a PyV and a number: numeric kinds
compare by value, anything else raises TypeError (as str <= float does). -/
def pyLeNum (a : PyV) (q : ℚ) : Except ConvErr Bool :=
  match pyNum a with
  | some x => .ok (decide (x ≤ q))
  | none => .error .typeError

/-- Python comparison q <= v between a number and a PyV. -/
def numLePy (q : ℚ) (a : PyV) : Except ConvErr Bool :=
  match pyNum a with
  | some x => .ok (decide (q ≤ x))
  | none => .error .typeError

/-- Python chained comparison lo <= q <= hi with short-circuiting: the
second comparison is only evaluated when the first is True. -/
def chainLe (lo : PyV) (q : ℚ) (hi : PyV) : Except ConvErr Bool := do
  let b1 ← pyLeNum lo q
  if b1 then numLePy q hi else pure false

/-- The CameraControlError family of camera_control_classes.py.  Each
constructor mirrors one subclass and its constructor arguments; devices
and argument names may be None in the source, hence Option String. -/
inductive CtrlErr where
  | commandArgumentError (device : Option String) (command : String)
      (argument : Option String) (message : String) : CtrlErr
  | commandExecutionError (device : Option String) (command : String)
      (message : String) : CtrlErr
  | commandNameError (device : Option String) (command : String) : CtrlErr
  | commandSequenceError (device : Option String) (command : String)
      (message : String) : CtrlErr
  | deviceNameError (device : Option String) : CtrlErr
  | variableError (device : PyV) (var : String) (value : PyV)
      (message : String) : CtrlErr
deriving DecidableEq, Repr

/-- Python-level exceptions that are NOT part of the CameraControlError
family and therefore escape the server main loop's except clause:
KeyError from a bare dict lookup, AttributeError from attribute access on
a str, TypeError/ValueError from builtin conversions, RecursionError from
unbounded recursion, RuntimeError from mutating a dict during iteration,
ZeroDivisionError, NameError from an unbound local.  nonTermination marks
a loop of the source that would never return (a modelling fuel bound). -/
inductive PyExn where
  | keyError (key : PyV) : PyExn
  | attributeError : PyExn
  | typeError : PyExn
  | valueError : PyExn
  | recursionError : PyExn
  | runtimeError : PyExn
  | zeroDivisionError : PyExn
  | nameError : PyExn
  | nonTermination : PyExn
deriving DecidableEq, Repr

/-- Any exception a tick of the server can raise: a control error (caught
by run_server and turned into an ERROR update) or a Python-level
exception (uncaught: the server process crashes). -/
inductive ExecErr where
  | ctrl (e : CtrlErr) : ExecErr
  | py (e : PyExn) : ExecErr
deriving DecidableEq, Repr

/-- The device field stored on a CtrlErr, used to build the ERROR update. -/
def ctrlErrDevice : CtrlErr → PyV
  | .commandArgumentError d _ _ _ => match d with
    | none => .vnone
    | some s => .vstr s
  | .commandExecutionError d _ _ => match d with
    | none => .vnone
    | some s => .vstr s
  | .commandNameError d _ => match d with
    | none => .vnone
    | some s => .vstr s
  | .commandSequenceError d _ _ => match d with
    | none => .vnone
    | some s => .vstr s
  | .deviceNameError d => match d with
    | none => .vnone
    | some s => .vstr s
  | .variableError d _ _ _ => d

/-- The formatted message of a CtrlErr, exactly as the constructors of
camera_control_classes.py interpolate their arguments. -/
def ctrlErrMessage : CtrlErr → String
  | .commandArgumentError _ c a m => c ++ ": " ++ fmtOptStr a ++ ": " ++ m
  | .commandExecutionError _ c m => c ++ ": " ++ m
  | .commandNameError _ c => c ++ ": invalid command name"
  | .commandSequenceError _ c m => c ++ ": " ++ m
  | .deviceNameError _ => "invalid device"
  | .variableError _ v val m => v ++ ": " ++ pyStr val ++ ": " ++ m

/-- DeviceCommand of camera_control_classes.py: a named tuple of device,
command name and argument dict.  The device is None for the special
repeat-mode marker commands. -/
structure DeviceCommand where
  device : Option String
  command : String
  args : PyDict
deriving DecidableEq, Repr

/-- UserCommand of server.py: the wire-level request, a named tuple of
command name and argument dict. -/
structure UserCommand where
  command : String
  args : PyDict
deriving DecidableEq, Repr

/-- Update of camera_control_classes.py, minus the wall-clock timestamp
(an external instant irrelevant to every claim): device (any value; error
updates may carry None), variable name, unit, and an ordered list of
(id, value) pairs. -/
structure Update where
  device : PyV
  var : String
  unit : PyV
  values : List (String × PyV)
deriving DecidableEq, Repr

/-- DeviceController.write_update: build a single-valued Update for this
device, with id the empty string; a None value yields no value pair. -/
def writeUpdate (device : String) (v : String) (value : PyV) : Update :=
  { device := .vstr device, var := v, unit := .vstr "",
    values := if value = .vnone then [] else [("", value)] }

/-- One entry of a composite command definition's args map: the index of
the sub-command the argument routes to, the argument name it takes there,
and an optional preset value (the val key may be absent). -/
structure CompArg where
  index : Int
  arg : String
  val : Option PyV
deriving DecidableEq, Repr

/-- A command definition from the commands file: either a leaf with a
device, a command and declared argument defaults (None for no default),
or a composite with an ordered command_list and an argument-routing map.
_validate_commands guarantees every table entry has one of the two
shapes, so the table is embedded as this tagged union. -/
inductive CmdDef where
  | leaf (device : Option String) (command : String) (args : PyDict) : CmdDef
  | comp (command_list : List String)
      (args : List (Option String × CompArg)) : CmdDef
deriving DecidableEq, Repr

/-- The command definition table (user_commands in server.py). -/
abbrev CmdTable := List (String × CmdDef)

/-- Lookup of a command name in the table; a missing name raises KeyError
in the source (a bare dict index), which is recorded by the caller. -/
def lookupCmd (t : CmdTable) (name : String) : Option CmdDef :=
  match t with
  | [] => none
  | kv :: rest => if kv.1 = name then some kv.2 else lookupCmd rest name

/-- get_command_args of server.py (the closure inside
_parse_user_command): merge declared argument defaults with user input
(user values win), then run the missing-argument check and the
extra-argument check.  The source's missing-argument check is the literal
comprehension over cmd_args testing whether each KEY a satisfies
a is None; it is embedded exactly as written, so it only fires when the
dict has the key None.  The extra check raises on a key of the merged
dict that is not a declared argument name. -/
def getCommandArgs (args user_input : PyDict) (device : Option String)
    (command : String) : Except ExecErr PyDict :=
  let cmd_args := pyMerge args user_input
  let missing_args := (cmd_args.map Prod.fst).filter (fun a => a.isNone)
  match missing_args with
  | a :: _ =>
    .error (.ctrl (.commandArgumentError device command a "missing argument"))
  | [] =>
    let extra_args :=
      (cmd_args.map Prod.fst).filter (fun k => ¬ (args.map Prod.fst).contains k)
    match extra_args with
    | k :: _ =>
      .error (.ctrl (.commandArgumentError device command k "extra argument"))
    | [] => .ok cmd_args

/-- The recursive case of _parse_user_command over a composite command
list, with the recursive parse supplied as a function argument.  For the
sub-command at index i, collect the declared args routed to i, build the
sub-argument defaults (absent val means None) and the matching
user-supplied values, validate them with get_command_args, and recurse;
results are concatenated in command_list order. -/
def parseCompList (parseF : UserCommand → Except ExecErr (List DeviceCommand))
    (uc : UserCommand) (cargs : List (Option String × CompArg)) :
    List String → Int → Except ExecErr (List DeviceCommand)
  | [], _ => .ok []
  | c :: rest, i => do
    let routed := cargs.filter (fun kv => kv.2.index = i)
    let sub_args : PyDict :=
      routed.foldl (fun acc kv =>
        dictAssign acc (some kv.2.arg) (kv.2.val.getD .vnone)) []
    let sub_user_input : PyDict :=
      routed.foldl (fun acc kv =>
        match lookupKey uc.args kv.1 with
        | some v => dictAssign acc (some kv.2.arg) v
        | none => acc) []
    let cmd_args ← getCommandArgs sub_args sub_user_input (some "server")
      uc.command
    let sub ← parseF { command := c, args := cmd_args }
    let more ← parseCompList parseF uc cargs rest (i + 1)
    .ok (sub ++ more)

/-- _parse_user_command of server.py: look the command name up in the
table (a bare dict index: an unknown name raises KeyError, which is NOT a
CameraControlError), then expand a leaf into one validated DeviceCommand
or a composite into the concatenation of its sub-commands' expansions.
The fuel bound stands for Python's finite recursion depth; exhausting it
is a RecursionError, again outside the CameraControlError family.  The
server's own device name is the literal server, as constructed in main. -/
def parseUserCommand (table : CmdTable) : Nat → UserCommand →
    Except ExecErr (List DeviceCommand)
  | 0, _ => .error (.py .recursionError)
  | fuel + 1, uc =>
    match lookupCmd table uc.command with
    | none => .error (.py (.keyError (.vstr uc.command)))
    | some (.leaf dev cmd args) => do
      let cmd_args ← getCommandArgs args uc.args dev cmd
      .ok [{ device := dev, command := cmd, args := cmd_args }]
    | some (.comp cl cargs) =>
      parseCompList (parseUserCommand table fuel) uc cargs cl 0

/-- The mutable fields of RunManager: the current state name, the
recorded run type and run id, and the rate-scan scratch samples.  The
scratch samples hold whatever Python values were last stored (they are
only ever reset in the reachable code, see rmStep). -/
structure RunManagerState where
  state : String
  run_type : Option String
  run_id : Option Int
  prev_thresh : Option PyV
  prev_rate : Option PyV
deriving DecidableEq, Repr

/-- The initial RunManager state set in RunManager.__init__. -/
def initRunManagerState : RunManagerState :=
  { state := "IDLE", run_type := none, run_id := none,
    prev_thresh := none, prev_rate := none }

/-- The fixed transition table of RunManager.__init__, keyed by
(current state, instruction). -/
def rmTransitions : List ((String × String) × String) :=
  [(("IDLE", "define_run"), "DEFINED"),
   (("DEFINED", "initialize_run"), "INITIALIZED"),
   (("DEFINED", "end_run"), "TERMINATED"),
   (("INITIALIZED", "start_run"), "ACTIVE"),
   (("INITIALIZED", "end_run"), "TERMINATED"),
   (("ACTIVE", "end_run"), "COMPLETE"),
   (("ACTIVE", "read_rate"), "ACTIVE"),
   (("COMPLETE", "clear_run"), "IDLE"),
   (("TERMINATED", "clear_run"), "IDLE")]

/-- Lookup in the transition table. -/
def lookupTrans (t : List ((String × String) × String)) (k : String × String) :
    Option String :=
  match t with
  | [] => none
  | kv :: rest => if kv.1 = k then some kv.2 else lookupTrans rest k

/-- The instruction set derived from the transition table keys
(RunManager._instructions; the source builds it as a set, so only
membership is meaningful). -/
def rmInstructionNames : List String := rmTransitions.map (fun e => e.1.2)

/-- Lines 135-142 of server.py: which instruction, if any, an incoming
Update carries for the RunManager.  A target/trigger_rate update means
read_rate; a server update whose variable is a known instruction name
means that instruction; everything else is ignored (process_update
returns None). -/
def rmInstructionOf (u : Update) : Option String :=
  if pyEq u.device (.vstr "target") && u.var = "trigger_rate" then
    some "read_rate"
  else if pyEq u.device (.vstr "server") then
    if rmInstructionNames.contains u.var then some u.var else none
  else none

/-- An Option Int as the Python value stored in a command argument map
(run_id may still be None when interpolated). -/
def optIntToPyV : Option Int → PyV
  | none => .vnone
  | some n => .vint n

/-- The body of RunManager.process_update after the instruction has been
resolved: check the (state, instruction) pair against the transition
table (an unlisted pair raises CommandSequenceError naming the
instruction and the current state, before any mutation), assign the new
state, then run the per-instruction branch.  The new-run id for
define_run comes from the external run-number allocator
(run_control.incrementRunNumber) and is passed in as newRunId.  In the
read_rate branch the source evaluates update.values with a string
index, but Update.values is a Python list, so that branch raises
TypeError.  The dispatch on instruction includes the source's branch for
the names with the initialize_ prefix; note that rmInstructionOf never
produces those names, since they are not transition-table keys.  An
instruction with no matching branch (such as the listed initialize_run)
falls through with command = None. -/
def rmStep (newRunId : Int) (s0 : RunManagerState) (instr : String) :
    RunManagerState × Except ExecErr (Option UserCommand) :=
  match lookupTrans rmTransitions (s0.state, instr) with
  | none =>
    (s0, .error (.ctrl (.commandSequenceError (some "server") instr
      (instr ++ " is not a valid instruction in run state " ++ s0.state))))
  | some newState =>
    let s := { s0 with state := newState }
    if instr = "define_run" then
      ({ s with run_id := some newRunId, prev_thresh := none,
                prev_rate := none }, .ok none)
    else if instr = "initialize_data_run" ∨ instr = "initialize_rate_scan" then
      ({ s with run_type := some (instr.drop 11) },
       .ok (some { command := "initialize_run",
                   args := [(some "run_id", optIntToPyV s.run_id)] }))
    else if instr = "start_run" then
      let args : PyDict :=
        if s.run_type = some "data_run" then
          [(some "adc_interval", .vint 30), (some "end_run_interval", .vint 1800)]
        else if s.run_type = some "rate_scan" then
          [(some "thresh", .vint 600)]
        else []
      (s, .ok (some { command := "start_" ++ fmtOptStr s.run_type, args := args }))
    else if instr = "read_rate" then
      (s, .error (.py .typeError))
    else if instr = "end_run" then
      if s.state = "COMPLETE" then
        (s, .ok (some { command := "end_" ++ fmtOptStr s.run_type, args := [] }))
      else (s, .ok none)
    else if instr = "clear_run" then
      ({ s with run_id := none, run_type := none }, .ok none)
    else (s, .ok none)

/-- RunManager.process_update: resolve the instruction carried by the
update (or return None), then dispatch through the transition table. -/
def rmProcessUpdate (newRunId : Int) (s : RunManagerState) (u : Update) :
    RunManagerState × Except ExecErr (Option UserCommand) :=
  match rmInstructionOf u with
  | none => (s, .ok none)
  | some instr => rmStep newRunId s instr

/-- The fields of an AlertManager.  All five configuration fields hold
whatever Python values the constructor received (set_alert passes values
straight from the command's argument map). -/
structure AlertManagerState where
  name : PyV
  device : PyV
  var : PyV
  lower_limit : PyV
  upper_limit : PyV
  alerted : Bool
deriving DecidableEq, Repr

/-- The loop of AlertManager.process_update over the update's (id, value)
pairs.  For each pair of a matching update: coerce the value to float
(failure is a VariableError), evaluate the chained limit comparison
(which raises TypeError when a limit is not numeric), and emit
issue_alert on a rising edge or clear_alert on a falling edge; with no
edge the loop continues with the next pair, and falls off the end
returning None. -/
def amProcessValues (s : AlertManagerState) (u : Update) :
    List (String × PyV) → AlertManagerState × Except ExecErr (Option UserCommand)
  | [] => (s, .ok none)
  | (value_id, value) :: rest =>
    if pyEq u.device s.device && pyEq (.vstr u.var) s.var then
      match pyFloat value with
      | .error .valueError =>
        (s, .error (.ctrl (.variableError u.device u.var value
          "could not convert to float for alert")))
      | .error .typeError => (s, .error (.py .typeError))
      | .ok alert_value =>
        match chainLe s.lower_limit alert_value s.upper_limit with
        | .error _ => (s, .error (.py .typeError))
        | .ok inside =>
          let outside_limits := !inside
          if outside_limits && !s.alerted then
            ({ s with alerted := true },
             .ok (some { command := "issue_alert", args :=
               [(some "name", s.name), (some "value", value),
                (some "value_id", .vstr value_id),
                (some "lower_limit", s.lower_limit),
                (some "upper_limit", s.upper_limit),
                (some "unit", u.unit)] }))
          else if !outside_limits && s.alerted then
            ({ s with alerted := false },
             .ok (some { command := "clear_alert",
                         args := [(some "name", s.name)] }))
          else amProcessValues s u rest
    else amProcessValues s u rest

/-- AlertManager.process_update. -/
def amProcessUpdate (s : AlertManagerState) (u : Update) :
    AlertManagerState × Except ExecErr (Option UserCommand) :=
  amProcessValues s u u.values

/-- The rate-scan constants hardcoded in RunManager.__init__, as exact
real numbers (the source computes with Python floats; the model uses
exact real arithmetic). -/
structure RateScanParams where
  stop_thresh : ℝ
  max_spacing : ℝ
  min_spacing : ℝ
  alpha : ℝ

/-- The values assigned in RunManager.__init__. -/
noncomputable def rmRateParams : RateScanParams :=
  { stop_thresh := 0, max_spacing := 50, min_spacing := 10, alpha := 1.5 }

/-- RunManager._calculate_spacing: a sigmoid of the absolute derivative
scaled into the spacing band and rounded to the nearest integer. -/
noncomputable def calculateSpacing (p : RateScanParams) (derivative : ℝ) : ℤ :=
  let sigmoid := 1 / (1 + |derivative| ^ p.alpha)
  let scale := p.max_spacing - p.min_spacing
  let offset := p.min_spacing
  round (scale * sigmoid + offset)

/-- The spacing formula exactly as the specification words it:
round of (max_spacing - min_spacing) / (1 + |d| ^ alpha) + min_spacing.
Stated separately so the code's expression can be compared against it. -/
noncomputable def specSpacing (p : RateScanParams) (d : ℝ) : ℤ :=
  round ((p.max_spacing - p.min_spacing) / (1 + |d| ^ p.alpha) + p.min_spacing)

/-- The command chosen by RunManager._read_rate. -/
inductive RateCommand where
  | readRate (next_thresh : ℝ) : RateCommand
  | endRateScan : RateCommand

/-- The tail of RunManager._read_rate: step down by the spacing and stop
the scan when the next threshold would fall below stop_thresh. -/
noncomputable def rateNext (p : RateScanParams) (thresh spacing : ℝ) :
    RateCommand :=
  let next_thresh := thresh - spacing
  if next_thresh ≥ p.stop_thresh then .readRate next_thresh else .endRateScan

/-- RunManager._read_rate: with no previous sample the spacing is
max_spacing; otherwise it is computed from the local derivative (a zero
threshold step raises ZeroDivisionError in the source's float division). -/
noncomputable def readRateStep (p : RateScanParams)
    (prev_thresh prev_rate : Option ℝ) (thresh rate : ℝ) :
    Except PyExn RateCommand :=
  match prev_thresh, prev_rate with
  | some pt, some pr =>
    if thresh - pt = 0 then .error .zeroDivisionError
    else
      let derivative := (rate - pr) / (thresh - pt)
      .ok (rateNext p thresh ((calculateSpacing p derivative : ℤ) : ℝ))
  | _, _ => .ok (rateNext p thresh p.max_spacing)

/-- A value stored in a repeat-timer dict: either a scalar or the
buffered device-command list under the command_list key. -/
inductive TimerVal where
  | pv (v : PyV) : TimerVal
  | cmds (cs : List DeviceCommand) : TimerVal
deriving DecidableEq, Repr

/-- A repeat timer: a Python dict keyed by arbitrary values
(modify_repeating_command inserts user-chosen keys). -/
abbrev Timer := List (PyV × TimerVal)

/-- A registered manager: the run manager or an alert manager. -/
inductive Manager where
  | runM (s : RunManagerState) : Manager
  | alertM (s : AlertManagerState) : Manager
deriving DecidableEq, Repr

/-- Lookup in a dict keyed by Python values; Python resolves dict keys by
value equality. -/
def lookupPy {α : Type} (d : List (PyV × α)) (k : PyV) : Option α :=
  match d with
  | [] => none
  | kv :: rest => if pyEq kv.1 k then some kv.2 else lookupPy rest k

/-- Dict assignment d[k] = v on a PyV-keyed dict: update in place (the
original key object is kept) or append. -/
def assignPy {α : Type} (d : List (PyV × α)) (k : PyV) (v : α) :
    List (PyV × α) :=
  match d with
  | [] => [(k, v)]
  | kv :: rest => if pyEq kv.1 k then (kv.1, v) :: rest
                  else kv :: assignPy rest k v

/-- Update an existing key only (used to write a mutated manager object
back: mutating an object cannot re-insert it once deleted). -/
def assignPyIfPresent {α : Type} (d : List (PyV × α)) (k : PyV) (v : α) :
    List (PyV × α) :=
  match d with
  | [] => []
  | kv :: rest => if pyEq kv.1 k then (kv.1, v) :: rest
                  else kv :: assignPyIfPresent rest k v

/-- Python del d[k]: none when the key is absent (KeyError in source). -/
def removePy {α : Type} (d : List (PyV × α)) (k : PyV) :
    Option (List (PyV × α)) :=
  match d with
  | [] => none
  | kv :: rest =>
    if pyEq kv.1 k then some rest
    else (removePy rest k).map (fun r => kv :: r)

/-- The server controller's mutable state: the manager registry (keyed by
name; initially the run manager under _run_manager), the repeat-timer
registry, the pending update list for the current tick, and an
instrumentation trace recording every DeviceCommand dispatched to a
device controller's execute_command (used to state dispatch-ordering
properties; it has no effect on behaviour). -/
structure ServerState where
  managers : List (PyV × Manager)
  timers : List (PyV × Timer)
  updates : List Update
  trace : List DeviceCommand
deriving DecidableEq, Repr

/-- The state right after ServerController.__init__. -/
def initServerState : ServerState :=
  { managers := [(.vstr "_run_manager", .runM initRunManagerState)],
    timers := [], updates := [], trace := [] }

/-- The external collaborators of the server: the configured hardware
device controllers (execute_command of each non-server device, whose own
state is outside the core) and the run-number allocator's next id. -/
structure Externals where
  devices : String → Option (DeviceCommand → Except ExecErr (Option Update))
  nextRunId : Int

/-- DeviceController.write_multiple_update: an Update carrying one value
per (id, value) entry; a None unit defaults to the empty string. -/
def writeMultipleUpdate (device : String) (v : String)
    (values : List (String × PyV)) (unit : PyV) : Update :=
  { device := .vstr device, var := v,
    unit := if unit = .vnone then .vstr "" else unit, values := values }

/-- The presence-and-non-None check loop used by set_alert and
issue_alert: a missing name is a missing argument, a None value an
unspecified argument, checked in list order. -/
def checkArgsPresent (args : PyDict) (cmd : String) :
    List String → Except ExecErr Unit
  | [] => .ok ()
  | a :: rest =>
    match lookupKey args (some a) with
    | none => .error (.ctrl (.commandArgumentError (some "server") cmd (some a)
        "missing argument"))
    | some v =>
      if v = .vnone then
        .error (.ctrl (.commandArgumentError (some "server") cmd (some a)
          "unspecified argument"))
      else checkArgsPresent args cmd rest

/-- The presence-only check loop used by modify_repeating_command and
stop_repeating_command. -/
def checkKeysPresent (args : PyDict) (cmd : String) :
    List String → Except ExecErr Unit
  | [] => .ok ()
  | a :: rest =>
    if hasKey args (some a) then checkKeysPresent args cmd rest
    else .error (.ctrl (.commandArgumentError (some "server") cmd (some a)
      "missing argument"))

/-- The try/except around command.args[arg] in the write_update branch:
an absent key or a None value both surface as a missing argument. -/
def reqNonNone (args : PyDict) (cmd : String) (a : String) :
    Except ExecErr PyV :=
  match lookupKey args (some a) with
  | none => .error (.ctrl (.commandArgumentError (some "server") cmd (some a)
      "missing argument"))
  | some v =>
    if v = .vnone then
      .error (.ctrl (.commandArgumentError (some "server") cmd (some a)
        "missing argument"))
    else .ok v

/-- ServerController.execute_command: the server's own meta-commands.
Each branch mirrors the source, including its slips:
the write_update branch evaluates cmd.args where cmd is the command-name
string, so after its argument checks it raises AttributeError;
the set_alert branch's float coercion sits after the validation loops
and reuses the stale loop variable arg, which at that point always holds
upper_limit, so only upper_limit is coerced;
the modify_repeating_command branch assigns into the timer dict, which
never raises KeyError, so its no-repeating-command-argument branch is
dead; and the stop_repeating_command error reuses the stale loop
variable, which holds no_command_is_error. -/
def executeCommand (st : ServerState) (command : DeviceCommand) :
    ServerState × Except ExecErr (Option Update) :=
  let cmd := command.command
  if cmd = "write_update" then
    match reqNonNone command.args cmd "variable" with
    | .error e => (st, .error e)
    | .ok _ =>
      match reqNonNone command.args cmd "value" with
      | .error e => (st, .error e)
      | .ok _ => (st, .error (.py .attributeError))
  else if cmd = "set_alert" then
    let all_args := ["name", "device", "variable", "lower_limit",
                     "upper_limit"]
    match checkArgsPresent command.args cmd all_args with
    | .error e => (st, .error e)
    | .ok _ =>
      let invalid_args := (command.args.map Prod.fst).filter
        (fun k => ¬ (all_args.map some).contains k)
      match invalid_args with
      | k :: _ =>
        (st, .error (.ctrl (.commandArgumentError (some "server") cmd k
          "invalid argument")))
      | [] =>
        match lookupKey command.args (some "upper_limit") with
        | none => (st, .error (.py (.keyError (.vstr "upper_limit"))))
        | some uv =>
          match pyFloat uv with
          | .error .valueError =>
            (st, .error (.ctrl (.commandArgumentError (some "server") cmd
              (some "upper_limit") "argument must be float")))
          | .error .typeError => (st, .error (.py .typeError))
          | .ok q =>
            let args2 := dictAssign command.args (some "upper_limit") (.vrat q)
            let getA := fun a => (lookupKey args2 (some a)).getD .vnone
            let am : AlertManagerState :=
              { name := getA "name", device := getA "device",
                var := getA "variable", lower_limit := getA "lower_limit",
                upper_limit := .vrat q, alerted := false }
            let ms := assignPy st.managers (getA "name") (.alertM am)
            ({ st with managers := ms },
             .ok (some (writeUpdate "server" "alert_set" (getA "name"))))
  else if cmd = "unset_alert" then
    match lookupKey command.args (some "name") with
    | none => (st, .error (.ctrl (.commandArgumentError (some "server") cmd
        (some "name") "missing argument")))
    | some name =>
      if name = .vnone then
        (st, .error (.ctrl (.commandArgumentError (some "server") cmd
          (some "name") "unspecified argument")))
      else
        match removePy st.managers name with
        | none => (st, .error (.ctrl (.commandExecutionError (some "server")
            cmd ("no manager named " ++ pyStr name))))
        | some ms =>
          ({ st with managers := ms },
           .ok (some (writeUpdate "server" "manager_unset" name)))
  else if cmd = "issue_alert" then
    let update_args := ["name", "value", "value_id", "lower_limit",
                        "upper_limit"]
    match checkArgsPresent command.args cmd (update_args ++ ["unit"]) with
    | .error e => (st, .error e)
    | .ok _ =>
      let values := update_args.map
        (fun a => (a, (lookupKey command.args (some a)).getD .vnone))
      (st, .ok (some (writeMultipleUpdate "server" "alert" values
        ((lookupKey command.args (some "unit")).getD .vnone))))
  else if cmd = "clear_alert" then
    match lookupKey command.args (some "name") with
    | none => (st, .error (.ctrl (.commandArgumentError (some "server") cmd
        (some "name") "missing argument")))
    | some name =>
      if name = .vnone then
        (st, .error (.ctrl (.commandArgumentError (some "server") cmd
          (some "name") "unspecified argument")))
      else (st, .ok (some (writeUpdate "server" "alert_clear" name)))
  else if cmd = "modify_repeating_command" then
    match checkKeysPresent command.args cmd ["name", "arg", "value"] with
    | .error e => (st, .error e)
    | .ok _ =>
      let name := (lookupKey command.args (some "name")).getD .vnone
      match lookupPy st.timers name with
      | none =>
        (st, .error (.ctrl (.commandArgumentError (some "server") cmd
          (some "name") ("no repeating command: " ++ pyStr name))))
      | some timer =>
        let timer2 := assignPy timer
          ((lookupKey command.args (some "arg")).getD .vnone)
          (.pv ((lookupKey command.args (some "value")).getD .vnone))
        ({ st with timers := assignPy st.timers name timer2 }, .ok none)
  else if cmd = "stop_repeating_command" then
    match checkKeysPresent command.args cmd ["name", "no_command_is_error"] with
    | .error e => (st, .error e)
    | .ok _ =>
      let name := (lookupKey command.args (some "name")).getD .vnone
      match removePy st.timers name with
      | some ts => ({ st with timers := ts }, .ok none)
      | none =>
        if pyTruthy ((lookupKey command.args
            (some "no_command_is_error")).getD .vnone) then
          (st, .error (.ctrl (.commandArgumentError (some "server") cmd
            (some "no_command_is_error")
            ("no repeating command: " ++ pyStr name))))
        else (st, .ok none)
  else (st, .error (.ctrl (.commandNameError (some "server") cmd)))

/-- The parameters collected by the outermost enter_repeat_mode. -/
structure RepeatParams where
  name : PyV
  interval : ℚ
  num_executions : Option Int
  execute_immediately : Bool
deriving DecidableEq, Repr

/-- The argument parsing of the outermost enter_repeat_mode
(lines 433-475 of server.py): name must be present (its value may be
anything, None included); interval must be present, non-None and float
convertible; num_executions is fetched with get, so an absent key yields
None and int(None) raises an uncaught TypeError, a non-integer string is
a must-be-integer argument error, zero means unbounded and a negative
count is an argument error; execute_immediately goes through bool, which
never fails. -/
def parseRepeatParams (dc : DeviceCommand) : Except ExecErr RepeatParams :=
  match lookupKey dc.args (some "name") with
  | none => .error (.ctrl (.commandArgumentError (some "server") dc.command
      (some "name") "missing argument"))
  | some name =>
    match lookupKey dc.args (some "interval") with
    | none => .error (.ctrl (.commandArgumentError (some "server") dc.command
        (some "interval") "missing argument"))
    | some iv =>
      if iv = .vnone then
        .error (.ctrl (.commandArgumentError (some "server") dc.command
          (some "interval") "missing argument"))
      else
        match pyFloat iv with
        | .error .valueError =>
          .error (.ctrl (.commandArgumentError (some "server") dc.command
            (some "interval") "must be float"))
        | .error .typeError => .error (.py .typeError)
        | .ok interval =>
          match pyInt ((lookupKey dc.args (some "num_executions")).getD .vnone)
          with
          | .error .typeError => .error (.py .typeError)
          | .error .valueError =>
            .error (.ctrl (.commandArgumentError (some "server") dc.command
              (some "num_executions") "must be integer"))
          | .ok n =>
            if n = 0 then
              .ok { name := name, interval := interval,
                    num_executions := none,
                    execute_immediately := pyTruthy ((lookupKey dc.args
                      (some "execute_immediately")).getD .vnone) }
            else if n < 0 then
              .error (.ctrl (.commandArgumentError (some "server") dc.command
                (some "num_executions") "must be >= 0"))
            else
              .ok { name := name, interval := interval,
                    num_executions := some n,
                    execute_immediately := pyTruthy ((lookupKey dc.args
                      (some "execute_immediately")).getD .vnone) }

/-- The timer dict built on the closing exit_repeat_mode, in the source's
insertion order; passed is initialised to execute_immediately.  The
threading.Timer armed at this point only flips the passed flag later in
real time and is outside this model. -/
def mkTimer (p : RepeatParams) (cs : List DeviceCommand) : Timer :=
  [(.vstr "interval", .pv (.vrat p.interval)),
   (.vstr "num_executions", .pv (optIntToPyV p.num_executions)),
   (.vstr "execute_immediately", .pv (.vbool p.execute_immediately)),
   (.vstr "command_list", .cmds cs),
   (.vstr "passed", .pv (.vbool p.execute_immediately))]

/-- Dispatch one DeviceCommand to the device-controller registry, which
holds the server itself under its own name plus the configured external
controllers: an unknown (or None) device name is a DeviceNameError; a
successful lookup calls that controller's execute_command (recorded in
the trace). -/
def dispatch (ext : Externals) (st : ServerState) (dc : DeviceCommand) :
    ServerState × Except ExecErr (Option Update) :=
  match dc.device with
  | some d =>
    if d = "server" then
      executeCommand { st with trace := st.trace ++ [dc] } dc
    else
      match ext.devices d with
      | none => (st, .error (.ctrl (.deviceNameError (some d))))
      | some f => ({ st with trace := st.trace ++ [dc] }, f dc)
  | none => (st, .error (.ctrl (.deviceNameError none)))

/-- ServerController._execute_device_command_list: walk the flattened
command list tracking the repeat-block depth; the outermost
enter_repeat_mode collects the timer parameters, inner commands
accumulate into the buffer, the matching exit_repeat_mode registers the
timer, and outside any repeat block each command is dispatched to its
device controller with any returned Update appended to the pending list.
An exit_repeat_mode before any enter would find repeat_params unbound
(NameError); depth bookkeeping is Python int arithmetic. -/
def execDeviceCommandList (ext : Externals) : ServerState → Int →
    Option RepeatParams → List DeviceCommand → List DeviceCommand →
    ServerState × Except ExecErr Unit
  | st, _, _, _, [] => (st, .ok ())
  | st, repeat_depth, repeat_params, repeat_cmds, dc :: rest =>
    if dc.device = none ∧ dc.command = "enter_repeat_mode" then
      if repeat_depth = 0 then
        match parseRepeatParams dc with
        | .error e => (st, .error e)
        | .ok p =>
          execDeviceCommandList ext st (repeat_depth + 1) (some p)
            repeat_cmds rest
      else
        execDeviceCommandList ext st (repeat_depth + 1) repeat_params
          (repeat_cmds ++ [dc]) rest
    else if dc.device = none ∧ dc.command = "exit_repeat_mode" then
      if repeat_depth - 1 = 0 then
        match repeat_params with
        | none => (st, .error (.py .nameError))
        | some p =>
          let ts := assignPy st.timers p.name (mkTimer p repeat_cmds)
          execDeviceCommandList ext { st with timers := ts }
            (repeat_depth - 1) repeat_params [] rest
      else
        execDeviceCommandList ext st (repeat_depth - 1) repeat_params
          (repeat_cmds ++ [dc]) rest
    else if repeat_depth > 0 then
      execDeviceCommandList ext st repeat_depth repeat_params
        (repeat_cmds ++ [dc]) rest
    else
      match dispatch ext st dc with
      | (st2, .error e) => (st2, .error e)
      | (st2, .ok upd) =>
        let st3 := match upd with
          | some u => { st2 with updates := st2.updates ++ [u] }
          | none => st2
        execDeviceCommandList ext st3 repeat_depth repeat_params
          repeat_cmds rest

/-- ServerController._execute_user_command: a None command does nothing;
otherwise parse the user command into a flat device-command list and only
then execute it.  Parsing validates the arguments of every leaf, so a
validation failure anywhere prevents every dispatch. -/
def executeUserCommand (table : CmdTable) (ext : Externals) (fuel : Nat)
    (st : ServerState) (uc : Option UserCommand) :
    ServerState × Except ExecErr Unit :=
  match uc with
  | none => (st, .ok ())
  | some u =>
    match parseUserCommand table fuel u with
    | .error e => (st, .error e)
    | .ok cmds => execDeviceCommandList ext st 0 none [] cmds

/-- Whether a timer field holds Python None. -/
def tvIsNone : TimerVal → Bool
  | .pv .vnone => true
  | _ => false

/-- The comparison timer-field <= 0; non-numeric values raise TypeError. -/
def tvLeZero : TimerVal → Except PyExn Bool
  | .pv v =>
    match pyNum v with
    | some q => .ok (decide (q ≤ 0))
    | none => .error .typeError
  | .cmds _ => .error .typeError

/-- Truthiness of a timer field. -/
def tvTruthy : TimerVal → Bool
  | .pv v => pyTruthy v
  | .cmds cs => ¬ cs.isEmpty

/-- The in-place decrement field -= 1 of a timer field. -/
def tvDec : TimerVal → Except PyExn TimerVal
  | .pv (.vint n) => .ok (.pv (.vint (n - 1)))
  | .pv (.vrat q) => .ok (.pv (.vrat (q - 1)))
  | .pv (.vbool b) => .ok (.pv (.vint ((if b then 1 else 0) - 1)))
  | _ => .error .typeError

/-- The loop of ServerController._execute_timed_commands over the timer
registry: iteration over a dict raises RuntimeError if its size changes
mid-iteration (a repeat block inside a timer's command list can register
a new timer); a timer with an exhausted bounded count is skipped; a timer
whose interval has passed has its flag cleared and its count decremented
before its buffered command list is executed.  The countdown k mirrors
the dict iterator's remaining steps and i is the current position. -/
def execTimedGo (ext : Externals) (orig : Nat) :
    Nat → Nat → ServerState → ServerState × Except ExecErr Unit
  | k, i, st =>
    if st.timers.length ≠ orig then (st, .error (.py .runtimeError))
    else
      match k with
      | 0 => (st, .ok ())
      | k' + 1 =>
        match st.timers[i]? with
        | none => (st, .ok ())
        | some (key, timer) =>
          match lookupPy timer (.vstr "num_executions") with
          | none => (st, .error (.py (.keyError (.vstr "num_executions"))))
          | some numv =>
            let afterSkip : ServerState × Except ExecErr Unit :=
              match lookupPy timer (.vstr "passed") with
              | none => (st, .error (.py (.keyError (.vstr "passed"))))
              | some pv =>
                if tvTruthy pv then
                  let t1 := assignPy timer (.vstr "passed")
                    (.pv (.vbool false))
                  let t2r : Except PyExn Timer :=
                    if tvIsNone numv then .ok t1
                    else
                      match tvDec numv with
                      | .error e => .error e
                      | .ok d =>
                        .ok (assignPy t1 (.vstr "num_executions") d)
                  match t2r with
                  | .error e => (st, .error (.py e))
                  | .ok t2 =>
                    match lookupPy t2 (.vstr "command_list") with
                    | none =>
                      (st, .error (.py (.keyError (.vstr "command_list"))))
                    | some (.pv _) => (st, .error (.py .typeError))
                    | some (.cmds cs) =>
                      let st2 :=
                        { st with timers := assignPy st.timers key t2 }
                      match execDeviceCommandList ext st2 0 none [] cs with
                      | (st3, .error e) => (st3, .error e)
                      | (st3, .ok _) => execTimedGo ext orig k' (i + 1) st3
                else execTimedGo ext orig k' (i + 1) st
            if tvIsNone numv then afterSkip
            else
              match tvLeZero numv with
              | .error e => (st, .error (.py e))
              | .ok le0 =>
                if le0 then execTimedGo ext orig k' (i + 1) st
                else afterSkip

/-- ServerController._execute_timed_commands. -/
def execTimedCommands (ext : Externals) (st : ServerState) :
    ServerState × Except ExecErr Unit :=
  execTimedGo ext st.timers.length st.timers.length 0 st

/-- process_update of either kind of registered manager. -/
def managerProcess (newRunId : Int) :
    Manager → Update → Manager × Except ExecErr (Option UserCommand)
  | .runM s, u =>
    let r := rmProcessUpdate newRunId s u
    (.runM r.1, r.2)
  | .alertM s, u =>
    let r := amProcessUpdate s u
    (.alertM r.1, r.2)

/-- The inner loop of the manager cascade: one manager object is walked
over the live pending-update list (Python list iteration sees updates
appended while iterating, so the loop is fuel-bounded); each update may
yield a follow-up UserCommand that is expanded and executed immediately.
The mutated manager is written back to its registry slot when the slot
still exists. -/
def cascadeInner (table : CmdTable) (ext : Externals) (pfuel : Nat) :
    Nat → PyV → Manager → Nat → ServerState →
    ServerState × Except ExecErr Unit
  | 0, _, _, _, st => (st, .error (.py .nonTermination))
  | f + 1, key, m, ui, st =>
    match st.updates[ui]? with
    | none => (st, .ok ())
    | some u =>
      let r := managerProcess ext.nextRunId m u
      let st1 := { st with managers := assignPyIfPresent st.managers key r.1 }
      match r.2 with
      | .error e => (st1, .error e)
      | .ok cmdOpt =>
        match executeUserCommand table ext pfuel st1 cmdOpt with
        | (st2, .error e) => (st2, .error e)
        | (st2, .ok _) => cascadeInner table ext pfuel f key r.1 (ui + 1) st2

/-- The outer loop of the manager cascade over the manager registry; as a
dict iteration it raises RuntimeError if the registry changes size while
iterating (a cascade command may register or remove a manager). -/
def cascadeGo (table : CmdTable) (ext : Externals) (pfuel ifuel : Nat)
    (orig : Nat) : Nat → Nat → ServerState → ServerState × Except ExecErr Unit
  | k, i, st =>
    if st.managers.length ≠ orig then (st, .error (.py .runtimeError))
    else
      match k with
      | 0 => (st, .ok ())
      | k' + 1 =>
        match st.managers[i]? with
        | none => (st, .ok ())
        | some (key, m) =>
          match cascadeInner table ext pfuel ifuel key m 0 st with
          | (st2, .error e) => (st2, .error e)
          | (st2, .ok _) => cascadeGo table ext pfuel ifuel orig k' (i + 1) st2

/-- The server/ERROR update built by the main loop's except clause from a
caught CameraControlError. -/
def errorUpdate (e : CtrlErr) : Update :=
  { device := ctrlErrDevice e, var := "ERROR", unit := .vstr "",
    values := [("", .vstr (ctrlErrMessage e))] }

/-- Steps 2-4 of one tick of run_server: execute the received user
command (if any), fire due repeat timers, then feed every pending update
through every registered manager. -/
def tickBody (table : CmdTable) (ext : Externals) (pfuel ifuel : Nat)
    (st : ServerState) (uc : Option UserCommand) :
    ServerState × Except ExecErr Unit :=
  match executeUserCommand table ext pfuel st uc with
  | (st1, .error e) => (st1, .error e)
  | (st1, .ok _) =>
    match execTimedCommands ext st1 with
    | (st2, .error e) => (st2, .error e)
    | (st2, .ok _) =>
      cascadeGo table ext pfuel ifuel st2.managers.length
        st2.managers.length 0 st2

/-- One iteration of the run_server while loop: the transport sends the
pending updates and hands over at most one received UserCommand (both
external, so the command is a parameter and the pending list is cleared),
then the tick body runs inside try/except CameraControlError: a control
error becomes a server/ERROR update appended to the pending list and the
loop continues (result none); any other exception escapes run_server and
the process crashes (result some exn). -/
def runServerTick (table : CmdTable) (ext : Externals) (pfuel ifuel : Nat)
    (st : ServerState) (uc : Option UserCommand) :
    ServerState × Option PyExn :=
  let st0 := { st with updates := [] }
  match tickBody table ext pfuel ifuel st0 uc with
  | (st1, .ok _) => (st1, none)
  | (st1, .error (.ctrl e)) =>
    ({ st1 with updates := st1.updates ++ [errorUpdate e] }, none)
  | (st1, .error (.py e)) => (st1, some e)

/-- A successful dict lookup implies key membership. -/
theorem hasKey_of_lookupKey {d : PyDict} {k : Option String} {v : PyV}
    (h : lookupKey d k = some v) : hasKey d k = true := by
  induction d with
  | nil => simp [lookupKey] at h
  | cons kv rest ih =>
    by_cases hk : kv.1 = k
    · simp [hasKey, hk]
    · simp only [lookupKey, hk, if_false] at h
      simp [hasKey, hk, ih h]

/-- Rounding is monotone. -/
theorem roundMonoOfLe {x y : ℝ} (h : x ≤ y) : round x ≤ round y := by
  rw [round_eq, round_eq]
  exact Int.floor_le_floor (by linarith)

/-- The chained limit comparison on rational limits never raises and is
the conjunction of the two comparisons. -/
theorem chainLe_vrat (lo hi q : ℚ) :
    chainLe (.vrat lo) q (.vrat hi)
      = .ok (decide (lo ≤ q) && decide (q ≤ hi)) := by
  by_cases h : lo ≤ q <;>
    simp [chainLe, pyLeNum, numLePy, pyNum, h, Bind.bind, Except.bind,
      pure, Except.pure]

/-- A small but representative command definition table (the real table
is a deployment-time YAML file outside the repository; the claims under
study quantify over tables or need only a table without the command name
in question). -/
def sampleTable : CmdTable :=
  [("power_on", .leaf (some "power") "turn_on" []),
   ("start_hv", .leaf (some "power") "start_HV" [])]

/-- Externals with no configured hardware controllers. -/
def noDevices : Externals :=
  { devices := fun _ => none, nextRunId := 0 }

/-- C1: the claim says an unknown user-command name (such as foo/bar)
yields exactly one ERROR update on the pending broadcast list and the
main loop continues.  Evaluating the embedded tick at that failing input
shows instead that the table lookup in _parse_user_command raises
KeyError, which is not a CameraControlError, so it escapes the main
loop's except clause: the tick result carries an uncaught Python
exception (the server process crashes) and the pending update list is
empty, with no ERROR update.  The claim describes the code's evident
intent (the except clause and the CommandNameError class exist for
exactly this), so this is a bug in the code. -/
theorem badCommandNameCrashesServer :
    runServerTick sampleTable noDevices 9 9 initServerState
      (some { command := "foo/bar", args := [] })
      = (initServerState, some (.keyError (.vstr "foo/bar")))
    ∧ (runServerTick sampleTable noDevices 9 9 initServerState
        (some { command := "foo/bar", args := [] })).1.updates = [] := by
  constructor <;> rfl

/-- C2: the claim says a declared argument whose merged value is still
null raises a missing-argument CommandArgumentError, and an undeclared
user key raises an extra-argument error.  Evaluating get_command_args at
a leaf declaring argument x with no default and empty user input shows
the merged map with the null value is returned with no error: the
source's missing-argument comprehension tests whether each KEY is None,
not its value, so the check never fires for string-keyed dicts.  The
extra-argument half does hold, as the second conjunct shows. -/
theorem missingArgumentCheckIsDead :
    getCommandArgs [(some "x", .vnone)] [] (some "fan") "turn_on"
      = .ok [(some "x", .vnone)]
    ∧ getCommandArgs [(some "x", .vnone)] [(some "y", .vstr "1")]
        (some "fan") "turn_on"
      = .error (.ctrl (.commandArgumentError (some "fan") "turn_on"
          (some "y") "extra argument")) := by
  constructor <;> rfl

/-- C3: for every (state, instruction) pair outside the Run Manager's
transition table, process_update raises a CommandSequenceError whose
command field is the instruction and whose message names both the
instruction and the current state, and the RunManager state (state,
run_type, run_id and all other fields) is returned unchanged. -/
theorem unlistedTransitionRaisesSequenceError (rid : Int)
    (s : RunManagerState) (u : Update) (instr : String)
    (hi : rmInstructionOf u = some instr)
    (ht : lookupTrans rmTransitions (s.state, instr) = none) :
    rmProcessUpdate rid s u
      = (s, .error (.ctrl (.commandSequenceError (some "server") instr
          (instr ++ " is not a valid instruction in run state "
            ++ s.state)))) := by
  simp [rmProcessUpdate, hi, rmStep, ht]

/-- Witness for C3: clear_run in state IDLE is not a listed pair; the
sequence error is raised and the state is unchanged. -/
theorem unlistedTransitionRaisesSequenceErrorWitness :
    rmInstructionOf
      { device := .vstr "server", var := "clear_run", unit := .vstr "",
        values := [] } = some "clear_run"
    ∧ lookupTrans rmTransitions ("IDLE", "clear_run") = none
    ∧ rmProcessUpdate 7 initRunManagerState
        { device := .vstr "server", var := "clear_run", unit := .vstr "",
          values := [] }
      = (initRunManagerState,
         .error (.ctrl (.commandSequenceError (some "server") "clear_run"
           ("clear_run" ++ " is not a valid instruction in run state "
             ++ "IDLE")))) :=
  ⟨rfl, rfl,
    unlistedTransitionRaisesSequenceError 7 initRunManagerState _ "clear_run"
      rfl rfl⟩

/-- C4: the claim says that in state DEFINED the instructions
initialize_data_run and initialize_rate_scan record run_type and return
an initialize_run UserCommand with the run id.  Evaluating the embedded
process_update shows both updates are filtered out (their names are not
keys of the transition table, so they are not in the derived instruction
set): the result is None with the state, run_type and run_id untouched.
The third conjunct shows the instruction actually listed in the table,
initialize_run, transitions DEFINED to INITIALIZED but hits no dispatch
branch, so run_type is never recorded and no command is returned; the
source's branch for the initialize_-prefixed names is unreachable. -/
theorem defineRunTypeBranchUnreachable :
    rmProcessUpdate 0
      { state := "DEFINED", run_type := none, run_id := some 42,
        prev_thresh := none, prev_rate := none }
      { device := .vstr "server", var := "initialize_data_run",
        unit := .vstr "", values := [] }
      = ({ state := "DEFINED", run_type := none, run_id := some 42,
           prev_thresh := none, prev_rate := none }, .ok none)
    ∧ rmProcessUpdate 0
        { state := "DEFINED", run_type := none, run_id := some 42,
          prev_thresh := none, prev_rate := none }
        { device := .vstr "server", var := "initialize_rate_scan",
          unit := .vstr "", values := [] }
      = ({ state := "DEFINED", run_type := none, run_id := some 42,
           prev_thresh := none, prev_rate := none }, .ok none)
    ∧ rmProcessUpdate 0
        { state := "DEFINED", run_type := none, run_id := some 42,
          prev_thresh := none, prev_rate := none }
        { device := .vstr "server", var := "initialize_run",
          unit := .vstr "", values := [] }
      = ({ state := "INITIALIZED", run_type := none, run_id := some 42,
           prev_thresh := none, prev_rate := none }, .ok none) := by
  refine ⟨?_, ?_, ?_⟩ <;> rfl

/-- C5: the claim says set_alert validates that exactly the five named
arguments are present and non-null (which the code does) and that on
success both lower_limit and upper_limit are coerced to float before the
AlertManager is constructed.  Evaluating execute_command at a fully
valid set_alert command shows the registered AlertManager keeps
lower_limit as the raw string while only upper_limit is a float: the
coercion block sits after the validation loops and reuses the stale loop
variable arg, which at that point always holds upper_limit (the source's
own comment says it intends to confirm that the limits, plural, have the
correct type). -/
theorem setAlertCoercesOnlyUpperLimit :
    executeCommand initServerState
      { device := some "server", command := "set_alert", args :=
        [(some "name", .vstr "a"), (some "device", .vstr "d"),
         (some "variable", .vstr "v"), (some "lower_limit", .vstr "1"),
         (some "upper_limit", .vstr "2")] }
      = ({ managers :=
             [(.vstr "_run_manager", .runM initRunManagerState),
              (.vstr "a", .alertM
                { name := .vstr "a", device := .vstr "d", var := .vstr "v",
                  lower_limit := .vstr "1", upper_limit := .vrat 2,
                  alerted := false })],
           timers := [], updates := [], trace := [] },
         .ok (some { device := .vstr "server", var := "alert_set",
                     unit := .vstr "", values := [("", .vstr "a")] })) := by
  rfl

/-- C6: executing a user command parses (and so argument-validates) every
leaf of the possibly nested composite before any dispatch: whenever the
parse of the command fails with any error (in particular a leaf
argument-validation failure), _execute_user_command returns that error
with the server state completely unchanged, so no DeviceCommand of the
composite reaches any device controller (the dispatch trace, the pending
updates, the timers and the managers are all untouched). -/
theorem noDispatchAfterValidationFailure (table : CmdTable) (ext : Externals)
    (fuel : Nat) (st : ServerState) (uc : UserCommand) (e : ExecErr)
    (hp : parseUserCommand table fuel uc = .error e) :
    executeUserCommand table ext fuel st (some uc) = (st, .error e) := by
  simp [executeUserCommand, hp]

/-- Witness for C6: a leaf command given an undeclared argument fails
validation during parsing and nothing is dispatched. -/
theorem noDispatchAfterValidationFailureWitness :
    parseUserCommand sampleTable 3
      { command := "power_on", args := [(some "bogus", .vstr "1")] }
      = .error (.ctrl (.commandArgumentError (some "power") "turn_on"
          (some "bogus") "extra argument"))
    ∧ executeUserCommand sampleTable noDevices 3 initServerState
        (some { command := "power_on", args := [(some "bogus", .vstr "1")] })
      = (initServerState,
         .error (.ctrl (.commandArgumentError (some "power") "turn_on"
           (some "bogus") "extra argument"))) :=
  ⟨rfl,
    noDispatchAfterValidationFailure sampleTable noDevices 3 initServerState
      { command := "power_on", args := [(some "bogus", .vstr "1")] } _ rfl⟩

/-- C9: for every write_update DeviceCommand whose argument map carries
non-null variable and value entries, the server's execute_command never
returns an Update: once the argument checks pass, the source evaluates
cmd.args where cmd is the command-name string, so the call raises
AttributeError (outside the CameraControlError family) with the state
unchanged, and the success branch is unreachable. -/
theorem writeUpdateBranchAlwaysRaises (st : ServerState) (args : PyDict)
    (v w : PyV)
    (hv : lookupKey args (some "variable") = some v) (hv2 : v ≠ .vnone)
    (hw : lookupKey args (some "value") = some w) (hw2 : w ≠ .vnone) :
    executeCommand st
      { device := some "server", command := "write_update", args := args }
      = (st, .error (.py .attributeError)) := by
  simp [executeCommand, reqNonNone, hv, hv2, hw, hw2]

/-- Witness for C9: a fully well-formed write_update command raises
AttributeError. -/
theorem writeUpdateBranchAlwaysRaisesWitness :
    lookupKey [(some "variable", .vstr "temp"), (some "value", .vstr "3")]
      (some "variable") = some (.vstr "temp")
    ∧ (PyV.vstr "temp") ≠ .vnone
    ∧ lookupKey [(some "variable", .vstr "temp"), (some "value", .vstr "3")]
        (some "value") = some (.vstr "3")
    ∧ (PyV.vstr "3") ≠ .vnone
    ∧ executeCommand initServerState
        { device := some "server", command := "write_update",
          args := [(some "variable", .vstr "temp"),
                   (some "value", .vstr "3")] }
      = (initServerState, .error (.py .attributeError)) :=
  ⟨rfl, by decide, rfl, by decide,
    writeUpdateBranchAlwaysRaises initServerState
      [(some "variable", .vstr "temp"), (some "value", .vstr "3")]
      (.vstr "temp") (.vstr "3") rfl (by decide) rfl (by decide)⟩

/-- C10: for every timer name present in the timer registry,
modify_repeating_command with any arg and value strings succeeds with no
error: the assignment into the timer's field dict inserts an unknown
field name as a new key (Python dict assignment cannot raise KeyError),
so the no-repeating-command-argument error branch is unreachable for an
existing timer. -/
theorem modifyRepeatingAlwaysSucceeds (st : ServerState) (args : PyDict)
    (nv : PyV) (t : Timer) (a v : String)
    (hn : lookupKey args (some "name") = some nv)
    (ha : lookupKey args (some "arg") = some (.vstr a))
    (hv : lookupKey args (some "value") = some (.vstr v))
    (ht : lookupPy st.timers nv = some t) :
    executeCommand st
      { device := some "server", command := "modify_repeating_command",
        args := args }
      = ({ st with timers := (assignPy st.timers nv
             (assignPy t (.vstr a) (.pv (.vstr v)))) }, .ok none) := by
  simp [executeCommand, checkKeysPresent, hasKey_of_lookupKey hn,
    hasKey_of_lookupKey ha, hasKey_of_lookupKey hv, hn, ha, hv, ht]

/-- Witness for C10: modifying an existing timer with an arbitrary field
name succeeds and inserts the new key. -/
theorem modifyRepeatingAlwaysSucceedsWitness :
    lookupKey [(some "name", .vstr "t1"), (some "arg", .vstr "nonsense"),
               (some "value", .vstr "99")] (some "name") = some (.vstr "t1")
    ∧ lookupPy [((.vstr "t1" : PyV),
        [((.vstr "interval" : PyV), TimerVal.pv (.vrat 5))])] (.vstr "t1")
      = some [((.vstr "interval" : PyV), TimerVal.pv (.vrat 5))]
    ∧ executeCommand
        { managers := [(.vstr "_run_manager", .runM initRunManagerState)],
          timers := [(.vstr "t1", [(.vstr "interval", .pv (.vrat 5))])],
          updates := [], trace := [] }
        { device := some "server", command := "modify_repeating_command",
          args := [(some "name", .vstr "t1"), (some "arg", .vstr "nonsense"),
                   (some "value", .vstr "99")] }
      = ({ managers := [(.vstr "_run_manager", .runM initRunManagerState)],
           timers := [(.vstr "t1",
             [(.vstr "interval", .pv (.vrat 5)),
              (.vstr "nonsense", .pv (.vstr "99"))])],
           updates := [], trace := [] }, .ok none) :=
  ⟨rfl, rfl,
    modifyRepeatingAlwaysSucceeds
      { managers := [(.vstr "_run_manager", .runM initRunManagerState)],
        timers := [(.vstr "t1", [(.vstr "interval", .pv (.vrat 5))])],
        updates := [], trace := [] }
      [(some "name", .vstr "t1"), (some "arg", .vstr "nonsense"),
       (some "value", .vstr "99")]
      (.vstr "t1") [(.vstr "interval", .pv (.vrat 5))] "nonsense" "99"
      rfl rfl rfl rfl⟩

/-- C7: with the RunManager's rate-scan constants, (1) the computed
spacing equals the specification's formula, the rounding of
(max_spacing - min_spacing) / (1 + |d| ^ alpha) + min_spacing; (2) the
spacing is monotonically non-increasing in |d|; (3) at d = 0 it equals
max_spacing exactly (which is 50); and (4) the first _read_rate call of a
scan, when either previous sample is missing, steps by max_spacing
regardless of any derivative. -/
theorem rateScanSpacingProperties :
    (∀ d : ℝ, calculateSpacing rmRateParams d = specSpacing rmRateParams d)
    ∧ (∀ d1 d2 : ℝ, |d1| ≤ |d2| →
        calculateSpacing rmRateParams d2 ≤ calculateSpacing rmRateParams d1)
    ∧ calculateSpacing rmRateParams 0 = 50
    ∧ rmRateParams.max_spacing = 50
    ∧ (∀ (pt pr : Option ℝ) (thresh rate : ℝ), pt = none ∨ pr = none →
        readRateStep rmRateParams pt pr thresh rate
          = .ok (rateNext rmRateParams thresh rmRateParams.max_spacing)) := by
  refine ⟨?_, ?_, ?_, rfl, ?_⟩
  · intro d
    simp only [calculateSpacing, specSpacing, mul_one_div]
  · intro d1 d2 h
    have hp : (0:ℝ) ≤ rmRateParams.alpha := by norm_num [rmRateParams]
    have h1 : |d1| ^ rmRateParams.alpha ≤ |d2| ^ rmRateParams.alpha :=
      Real.rpow_le_rpow (abs_nonneg d1) h hp
    have h2 : (0:ℝ) < 1 + |d1| ^ rmRateParams.alpha := by positivity
    have h5 : 1 / (1 + |d2| ^ rmRateParams.alpha)
        ≤ 1 / (1 + |d1| ^ rmRateParams.alpha) :=
      one_div_le_one_div_of_le h2 (by linarith)
    have hscale : (0:ℝ) ≤ rmRateParams.max_spacing - rmRateParams.min_spacing :=
      by norm_num [rmRateParams]
    have h6 := mul_le_mul_of_nonneg_left h5 hscale
    simp only [calculateSpacing]
    exact roundMonoOfLe (by linarith)
  · have h0 : |(0:ℝ)| ^ rmRateParams.alpha = 0 := by
      rw [abs_zero]
      exact Real.zero_rpow (by norm_num [rmRateParams])
    simp only [calculateSpacing, h0, rmRateParams]
    norm_num
  · intro pt pr thresh rate h
    rcases h with h | h
    · subst h
      cases pr <;> rfl
    · subst h
      cases pt <;> rfl

/-- Witness for C7: the spacing at derivative 1 is no larger than at
derivative 0, and a first call with a missing previous threshold steps by
max_spacing. -/
theorem rateScanSpacingPropertiesWitness :
    |(0:ℝ)| ≤ |(1:ℝ)|
    ∧ calculateSpacing rmRateParams 1 ≤ calculateSpacing rmRateParams 0
    ∧ ((none : Option ℝ) = none ∨ (some (3:ℝ) : Option ℝ) = none)
    ∧ readRateStep rmRateParams none (some 3) 600 100
        = .ok (rateNext rmRateParams 600 rmRateParams.max_spacing) :=
  ⟨by norm_num, rateScanSpacingProperties.2.1 0 1 (by norm_num),
   Or.inl rfl,
   rateScanSpacingProperties.2.2.2.2 none (some 3) 600 100 (Or.inl rfl)⟩

/-- An AlertManager as set_alert intends to construct it: rational limits
and the initial non-alerted flag. -/
def amInit (nm dev : PyV) (varName : String) (lo hi : ℚ) :
    AlertManagerState :=
  { name := nm, device := dev, var := .vstr varName,
    lower_limit := .vrat lo, upper_limit := .vrat hi, alerted := false }

/-- A matching single-valued Update carrying one rational sample. -/
def oneValueUpdate (dev : PyV) (varName : String) (unitv : PyV) (i : String)
    (q : ℚ) : Update :=
  { device := dev, var := varName, unit := unitv, values := [(i, .vrat q)] }

/-- The issue_alert UserCommand built by AlertManager.process_update. -/
def issueAlertCmd (s : AlertManagerState) (value : PyV) (i : String)
    (unitv : PyV) : UserCommand :=
  { command := "issue_alert", args :=
    [(some "name", s.name), (some "value", value), (some "value_id", .vstr i),
     (some "lower_limit", s.lower_limit), (some "upper_limit", s.upper_limit),
     (some "unit", unitv)] }

/-- C8: AlertManager.process_update is edge-triggered: from the
non-alerted state, two consecutive matching out-of-range updates return
exactly one issue_alert command (on the first; the second returns none);
a matching in-range update fed in the alerted state returns exactly one
clear_alert command and returns the manager to the non-alerted state;
and two consecutive matching in-range updates from the non-alerted state
return no command at all and leave the state untouched. -/
theorem alertManagerEdgeTriggered (nm dev unitv : PyV) (varName : String)
    (lo hi q1 q2 q3 q4 q5 : ℚ) (i1 i2 i3 i4 i5 : String)
    (h1 : ¬ (lo ≤ q1 ∧ q1 ≤ hi)) (h2 : ¬ (lo ≤ q2 ∧ q2 ≤ hi))
    (h3 : lo ≤ q3 ∧ q3 ≤ hi) (h4 : lo ≤ q4 ∧ q4 ≤ hi)
    (h5 : lo ≤ q5 ∧ q5 ≤ hi) :
    amProcessUpdate (amInit nm dev varName lo hi)
        (oneValueUpdate dev varName unitv i1 q1)
      = ({ amInit nm dev varName lo hi with alerted := true },
         .ok (some (issueAlertCmd (amInit nm dev varName lo hi)
           (.vrat q1) i1 unitv)))
    ∧ amProcessUpdate { amInit nm dev varName lo hi with alerted := true }
        (oneValueUpdate dev varName unitv i2 q2)
      = ({ amInit nm dev varName lo hi with alerted := true }, .ok none)
    ∧ amProcessUpdate { amInit nm dev varName lo hi with alerted := true }
        (oneValueUpdate dev varName unitv i3 q3)
      = (amInit nm dev varName lo hi,
         .ok (some { command := "clear_alert", args := [(some "name", nm)] }))
    ∧ amProcessUpdate (amInit nm dev varName lo hi)
        (oneValueUpdate dev varName unitv i4 q4)
      = (amInit nm dev varName lo hi, .ok none)
    ∧ amProcessUpdate (amInit nm dev varName lo hi)
        (oneValueUpdate dev varName unitv i5 q5)
      = (amInit nm dev varName lo hi, .ok none) := by
  have e1 : (decide (lo ≤ q1) && decide (q1 ≤ hi)) = false := by
    rcases Decidable.em (lo ≤ q1) with ha | ha
    · have hb : ¬ q1 ≤ hi := fun hb => h1 ⟨ha, hb⟩
      simp [ha, hb]
    · simp [ha]
  have e2 : (decide (lo ≤ q2) && decide (q2 ≤ hi)) = false := by
    rcases Decidable.em (lo ≤ q2) with ha | ha
    · have hb : ¬ q2 ≤ hi := fun hb => h2 ⟨ha, hb⟩
      simp [ha, hb]
    · simp [ha]
  have e3 : (decide (lo ≤ q3) && decide (q3 ≤ hi)) = true := by
    simp [h3.1, h3.2]
  have e4 : (decide (lo ≤ q4) && decide (q4 ≤ hi)) = true := by
    simp [h4.1, h4.2]
  have e5 : (decide (lo ≤ q5) && decide (q5 ≤ hi)) = true := by
    simp [h5.1, h5.2]
  refine ⟨?_, ?_, ?_, ?_, ?_⟩ <;>
    simp [amProcessUpdate, amProcessValues, amInit, oneValueUpdate,
      issueAlertCmd, pyEq_refl, pyFloat, chainLe_vrat, e1, e2, e3, e4, e5]

/-- Witness for C8: limits 0 to 10 with samples 20, 30 (out of range) and
5, 5, 6 (in range). -/
theorem alertManagerEdgeTriggeredWitness :
    (¬ ((0:ℚ) ≤ 20 ∧ (20:ℚ) ≤ 10)) ∧ (¬ ((0:ℚ) ≤ 30 ∧ (30:ℚ) ≤ 10))
    ∧ ((0:ℚ) ≤ 5 ∧ (5:ℚ) ≤ 10) ∧ ((0:ℚ) ≤ 6 ∧ (6:ℚ) ≤ 10)
    ∧ (amProcessUpdate (amInit (.vstr "a") (.vstr "chiller") "temp" 0 10)
        (oneValueUpdate (.vstr "chiller") "temp" (.vstr "C") "" 20)
      = ({ amInit (.vstr "a") (.vstr "chiller") "temp" 0 10 with
            alerted := true },
         .ok (some (issueAlertCmd
           (amInit (.vstr "a") (.vstr "chiller") "temp" 0 10)
           (.vrat 20) "" (.vstr "C"))))
    ∧ amProcessUpdate { amInit (.vstr "a") (.vstr "chiller") "temp" 0 10 with
          alerted := true }
        (oneValueUpdate (.vstr "chiller") "temp" (.vstr "C") "" 30)
      = ({ amInit (.vstr "a") (.vstr "chiller") "temp" 0 10 with
            alerted := true }, .ok none)
    ∧ amProcessUpdate { amInit (.vstr "a") (.vstr "chiller") "temp" 0 10 with
          alerted := true }
        (oneValueUpdate (.vstr "chiller") "temp" (.vstr "C") "" 5)
      = (amInit (.vstr "a") (.vstr "chiller") "temp" 0 10,
         .ok (some { command := "clear_alert",
                     args := [(some "name", .vstr "a")] }))
    ∧ amProcessUpdate (amInit (.vstr "a") (.vstr "chiller") "temp" 0 10)
        (oneValueUpdate (.vstr "chiller") "temp" (.vstr "C") "" 5)
      = (amInit (.vstr "a") (.vstr "chiller") "temp" 0 10, .ok none)
    ∧ amProcessUpdate (amInit (.vstr "a") (.vstr "chiller") "temp" 0 10)
        (oneValueUpdate (.vstr "chiller") "temp" (.vstr "C") "" 6)
      = (amInit (.vstr "a") (.vstr "chiller") "temp" 0 10, .ok none)) :=
  ⟨by norm_num, by norm_num, by norm_num, by norm_num,
   alertManagerEdgeTriggered (.vstr "a") (.vstr "chiller") (.vstr "C") "temp"
     0 10 20 30 5 5 6 "" "" "" "" ""
     (by norm_num) (by norm_num) (by norm_num) (by norm_num) (by norm_num)⟩

end SCTSC
